import Mathlib

/-!
Verification of the scroll-driven UI behavior of a portfolio website
(`src/js/portfolio.js`, `src/assets/js/main_js.js`, `src/js/dark-mode.js`,
`src/unnamed/part_000`), shallowly embedded in Lean 4.

Scroll offsets are modelled as `Nat` (pixels, non-negative), time stamps as
`Nat` (milliseconds), fractional computations as `ℚ`.  Style assignments on
DOM elements are modelled by the branch that is taken: `navHidden = true`
stands for `nav.style.transform = translateY(-100pct)`, `navHidden = false`
for `translateY(0)`, and `navScrolled` for the opaque-background branch.
-/

namespace JS

/-- A JavaScript number, idealized: finite values are exact rationals, with
the special values NaN and the two infinities explicit.  IEEE-754 rounding
of the finite operations used below preserves signs and the comparisons in
the theorems, so exact rationals are a faithful model for them. -/
inductive Num where
  | nan
  | posInf
  | negInf
  | fin (q : ℚ)
  deriving Repr, DecidableEq

/-- JS division of two finite numbers: `0 / 0` is NaN and `x / 0` is
`±Infinity` for nonzero `x`. -/
def divFin (a b : ℚ) : Num :=
  if b = 0 then
    if a = 0 then .nan else if 0 < a then .posInf else .negInf
  else .fin (a / b)

/-- Multiplication of a JS number by the finite positive literal 100. -/
def mulHundred : Num → Num
  | .nan => .nan
  | .posInf => .posInf
  | .negInf => .negInf
  | .fin q => .fin (q * 100)

/-- The `Math.min` of a JS number and a finite second argument; NaN propagates. -/
def minFin : Num → ℚ → Num
  | .nan, _ => .nan
  | .posInf, b => .fin b
  | .negInf, _ => .negInf
  | .fin a, b => .fin (min a b)

end JS

namespace Portfolio

/-! ### Scroll state and `handleScroll` (src/js/portfolio.js lines 147-179,
src/unnamed/part_000 lines 124-154) -/

/-- The coordinator state touched by `handleScroll`:
`this.state.lastScrollY` plus the nav style branches chosen on the last
tick. -/
structure ScrollState where
  lastScrollY : Nat
  navScrolled : Bool
  navHidden   : Bool
  deriving Repr, DecidableEq

/-- One scroll tick, from `handleScroll`:
background/shadow branch when `currentScrollY > 100`; hide the nav when
`currentScrollY > this.state.lastScrollY && currentScrollY > 200`;
then `this.state.lastScrollY = currentScrollY` unconditionally. -/
def handleScroll (s : ScrollState) (currentScrollY : Nat) : ScrollState :=
  { lastScrollY := currentScrollY
    navScrolled := decide (currentScrollY > 100)
    navHidden := decide (currentScrollY > s.lastScrollY) && decide (currentScrollY > 200) }

/-- Process a sequence of scroll ticks in order. -/
def processTicks (s : ScrollState) (ticks : List Nat) : ScrollState :=
  ticks.foldl handleScroll s

/-! ### Section highlighting (src/js/portfolio.js lines 182-196,
src/unnamed/part_000 lines 156-170) -/

/-- The membership test of `highlightActiveSection` for one section:
`scrollPosition >= sectionTop && scrollPosition < sectionTop + sectionHeight`
with `scrollPosition = window.scrollY + 100`. -/
def sectionMatches (scrollY sectionTop sectionHeight : Nat) : Bool :=
  decide (scrollY + 100 ≥ sectionTop) && decide (scrollY + 100 < sectionTop + sectionHeight)

/-- A registered section: `(id, offsetTop, offsetHeight)`. -/
abbrev Section := String × Nat × Nat

/-- A nav link: the section id its `href` points at, and whether the
`active` class is currently present. -/
abbrev NavLink := String × Bool

/-- The rewrite `link.classList.toggle("active", href === hash-id)` applied
to every link, as done for each matching section. -/
def applyMatch (links : List NavLink) (id : String) : List NavLink :=
  links.map (fun l => (l.1, l.1 == id))

/-- One `highlightActiveSection` tick: scan the sections in registration
order; every matching section rewrites the whole link set. -/
def highlightTick (sections : List Section) (links : List NavLink) (scrollY : Nat) :
    List NavLink :=
  sections.foldl
    (fun ls sec => if sectionMatches scrollY sec.2.1 sec.2.2 then applyMatch ls sec.1 else ls)
    links

/-- Process a sequence of highlight ticks. -/
def highlightRun (sections : List Section) (links : List NavLink) (ticks : List Nat) :
    List NavLink :=
  ticks.foldl (highlightTick sections) links

/-- Ids of the sections a given offset matches, in registration order. -/
def matchingIds (sections : List Section) (scrollY : Nat) : List String :=
  (sections.filter (fun sec => sectionMatches scrollY sec.2.1 sec.2.2)).map (·.1)

/-- Number of links currently carrying the `active` class. -/
def countActive (links : List NavLink) : Nat :=
  (links.filter (fun l => l.2)).length

/-! ### Scroll progress indicator (src/js/portfolio.js lines 87-105,
src/unnamed/part_000 lines 73-90) -/

/-- The number the scroll handler of `setupScrollProgress` writes to the
progress bar width (in percent; appending the percent sign only renders
it): `Math.min(window.scrollY / (scrollHeight - innerHeight) * 100, 100)`. -/
def progressWidth (scrollY scrollHeight innerHeight : ℚ) : JS.Num :=
  JS.minFin (JS.mulHundred (JS.divFin scrollY (scrollHeight - innerHeight))) 100

/-! ### Event coalescing: `throttle` (src/js/portfolio.js lines 56-65) -/

/-- The `throttle(callback, delay)` closure run over a list of timestamped
calls `(now, offset)`: a call executes the callback iff
`now - lastCall >= delay`, in which case `lastCall = now`; otherwise the
call is dropped.  Returns the offsets the callback was invoked with, in
order.  The closure starts with `let lastCall = 0`. -/
def throttleRun (delay : Nat) : Nat → List (Nat × Nat) → List Nat
  | _, [] => []
  | lastCall, c :: rest =>
    if delay ≤ c.1 - lastCall then c.2 :: throttleRun delay c.1 rest
    else throttleRun delay lastCall rest

/-- The `throttle` closure run from its initial state (`lastCall = 0`). -/
def throttleApplied (delay : Nat) (calls : List (Nat × Nat)) : List Nat :=
  throttleRun delay 0 calls

/-! ### Counter animation (src/js/portfolio.js lines 499-531) -/

/-- The easing curve `easeOutQuad(x) = 1 - (1 - x) * (1 - x)`. -/
def easeOutQuad (x : ℚ) : ℚ := 1 - (1 - x) * (1 - x)

/-- The value `animateCounter` writes at a frame `elapsed` ms after start:
`progress = Math.min(elapsed / duration, 1)` with `duration = 2000`,
`current = Math.floor(startValue + (target - startValue) * easeOutQuad(progress))`
with `startValue = 0`. -/
def counterDisplay (target : Nat) (elapsed : ℚ) : ℤ :=
  ⌊(target : ℚ) * easeOutQuad (min (elapsed / 2000) 1)⌋

/-! ### Missing-element handling (src/js/portfolio.js lines 68-84 and
137-144) -/

/-- From `setupNavigation` (portfolio.js lines 137-144): `if (!this.dom.nav)
return;` — returns whether the two scroll listeners were registered. -/
def setupNavigation (nav : Option Nat) : Bool :=
  nav.isSome

end Portfolio

namespace MainJs

/-! ### The second draft, src/assets/js/main_js.js -/

/-- Outcome of a click handler: nothing, a smooth scroll to a position, or
a thrown TypeError (a property read on a null element). -/
inductive ClickResult where
  | noop
  | scrolledTo (pos : Int)
  | threw
  deriving Repr, DecidableEq

/-- From `handleNavClick` (main_js.js lines 45-65): skip unless the href starts
with a hash; skip if `document.querySelector(href)` finds nothing; but
`this.nav.offsetHeight` is read without a null guard, so a missing nav
throws once a target is found.  `nav` is the nav height when the element
is present; `lookup` is the querySelector result for the clicked href;
hrefs are character lists. -/
def handleNavClick (nav : Option Nat) (href : Option (List Char))
    (lookup : List Char → Option Nat) : ClickResult :=
  match href with
  | none => .noop
  | some h =>
    match h with
    | '#' :: _ =>
      match lookup h with
      | some targetTop =>
        match nav with
        | some navHeight => .scrolledTo ((targetTop : Int) - navHeight)
        | none => .threw
      | none => .noop
    | _ => .noop

end MainJs

namespace Portfolio

/-- The anchor click handler of `setupSmoothScrolling` (portfolio.js lines
68-84): `const navHeight = this.dom.nav?.offsetHeight || 0;` tolerates a
missing nav, and a missing target is skipped. -/
def anchorClick (nav : Option Nat) (target : Option Nat) : MainJs.ClickResult :=
  match target with
  | some top => .scrolledTo ((top : Int) - nav.getD 0 - 20)
  | none => .noop

end Portfolio

namespace MainJs

/-! ### Contact form validation (src/assets/js/main_js.js lines 310-366).
Form values are modelled as character lists; `jsTrim` is the semantics of
`String.prototype.trim`. -/

/-- Semantics of `value.trim()`: strip whitespace from both ends. -/
def jsTrim (s : List Char) : List Char :=
  ((s.dropWhile Char.isWhitespace).reverse.dropWhile Char.isWhitespace).reverse

/-- Split a character list at every occurrence of a character. -/
def splitOnChar (c : Char) : List Char → List (List Char)
  | [] => [[]]
  | x :: xs =>
    match splitOnChar c xs with
    | [] => if x == c then [[], [x]] else [[x]]
    | y :: ys => if x == c then [] :: y :: ys else (x :: y) :: ys

/-- The test of the email pattern of main_js.js lines 320 and 350
(anchored; one at-sign separating two whitespace-free groups): a nonempty
whitespace-free part before the at-sign, and a whitespace-free part after
it containing a dot that is neither its first nor its last character (the
runs before and after that dot are the two required nonempty groups, which
may themselves contain further dots). -/
def emailRegexTest (s : List Char) : Bool :=
  match splitOnChar '@' s with
  | [loc, dom] =>
    !loc.isEmpty && loc.all (fun c => !c.isWhitespace) &&
      dom.all (fun c => !c.isWhitespace) && (dom.drop 1).dropLast.contains '.'
  | _ => false

/-- From `validateField` (main_js.js lines 335-366).  Returns the value of the
JS function and the inline error left showing after the call
(`clearFieldError` runs first, so `none` means no error is shown). -/
def validateField (fieldName value : List Char) : Bool × Option String :=
  let v := jsTrim value
  if fieldName = "name".toList then
    if 0 < v.length ∧ v.length < 2 then (false, some "Name must be at least 2 characters")
    else (true, none)
  else if fieldName = "email".toList then
    if 0 < v.length ∧ emailRegexTest v = false then
      (false, some "Please enter a valid email address")
    else (true, none)
  else if fieldName = "message".toList then
    if 0 < v.length ∧ v.length < 10 then
      (false, some "Message must be at least 10 characters")
    else (true, none)
  else (true, none)

/-- From `validateForm` (main_js.js lines 310-333): checks name, email and
message in order; a falsy (empty) field fails its check outright.  Returns
`isValid` and the inline errors shown. -/
def validateForm (name email message : List Char) : Bool × List String :=
  let nameBad := name.isEmpty || decide ((jsTrim name).length < 2)
  let emailBad := email.isEmpty || !emailRegexTest (jsTrim email)
  let messageBad := message.isEmpty || decide ((jsTrim message).length < 10)
  (!(nameBad || emailBad || messageBad),
    (if nameBad then ["Name must be at least 2 characters"] else []) ++
      (if emailBad then ["Please enter a valid email address"] else []) ++
      (if messageBad then ["Message must be at least 10 characters"] else []))

end MainJs

namespace DarkMode

/-! ### Theme toggle (src/js/dark-mode.js lines 7-48) -/

/-- Theme state: `applied = true` means the body carries the `dark-mode` class
(`false`: `light-mode`); `stored` is the `theme` key in local storage. -/
structure ThemeState where
  applied : Bool
  stored  : Option String
  deriving Repr, DecidableEq

/-- The startup resolution `localStorage.getItem(theme) || (prefersDark ? dark : light)`. -/
def resolveStartup (stored : Option String) (prefersDark : Bool) : String :=
  stored.getD (if prefersDark then "dark" else "light")

/-- Startup of `initDarkMode`: resolve the theme and add the matching body
class; storage is not written at startup. -/
def initDarkMode (stored : Option String) (prefersDark : Bool) : ThemeState :=
  { applied := resolveStartup stored prefersDark == "dark"
    stored := stored }

/-- The toggle click handler: flip the body class
(`classList.replace`) and store the new theme name under the `theme` key. -/
def toggleClick (s : ThemeState) : ThemeState :=
  { applied := !s.applied
    stored := some (if s.applied then "light" else "dark") }

end DarkMode

/-! ## Theorems -/

namespace Portfolio

/-- Updating on a tick always records the tick offset. -/
theorem handleScroll_lastScrollY (s : ScrollState) (o : Nat) :
    (handleScroll s o).lastScrollY = o := rfl

/-- Claim C1: After any nonempty sequence of processed scroll ticks, the nav is
hidden iff the final offset exceeds the previously processed offset and
exceeds 200, and `lastScrollY` is updated to the final offset
unconditionally. -/
theorem nav_hidden_iff_final (s : ScrollState) (ticks : List Nat) (last : Nat) :
    ((processTicks s (ticks ++ [last])).navHidden = true ↔
      (processTicks s ticks).lastScrollY < last ∧ 200 < last) ∧
    (processTicks s (ticks ++ [last])).lastScrollY = last ∧
    ∀ t o, (handleScroll t o).lastScrollY = o := by
  refine ⟨?_, ?_, fun t o => rfl⟩ <;>
    simp [processTicks, handleScroll, List.foldl_append, Nat.lt_iff_add_one_le]

/-- Claim C4, counterexample: At offset 0 with a section of top 0 and height
100, the membership predicate claimed by the spec (inclusive upper bound)
holds, yet the code does not match the section: the upper bound in the code
is strict. -/
theorem sectionMatches_upper_not_inclusive :
    (0 ≤ 0 + 100 ∧ 0 + 100 ≤ 0 + 100) ∧ sectionMatches 0 0 100 = false := by
  decide

/-- Claim C2, counterexample: Two calls 5 ms apart under a 10 ms window:
only the first call is applied; the final offset 7 of the burst is dropped
and never applied, so the applied state does not reflect the final
offset. -/
theorem throttle_drops_last_call :
    throttleApplied 10 [(1000, 300), (1005, 7)] = [300] ∧
    7 ∉ throttleApplied 10 [(1000, 300), (1005, 7)] := by
  decide

/-- Calls entirely inside an already-started window are all dropped. -/
theorem throttleRun_window (delay t : Nat) (rest : List (Nat × Nat))
    (h : ∀ c ∈ rest, c.1 - t < delay) : throttleRun delay t rest = [] := by
  induction rest with
  | nil => rfl
  | cons c rest ih =>
    rw [throttleRun, if_neg (Nat.not_le.mpr (h c (List.mem_cons_self c rest)))]
    exact ih fun d hd => h d (List.mem_cons_of_mem c hd)

/-- Claim C2, amended: The `throttle` of portfolio.js is leading-edge, not
trailing-edge: in a burst whose first call arrives with the window expired
and whose remaining calls all fall within `delay` of the first, exactly the
first call is applied and every later call of the burst is dropped. -/
theorem throttle_leading_edge (delay lastCall t v : Nat) (rest : List (Nat × Nat))
    (hfire : delay ≤ t - lastCall)
    (hburst : ∀ c ∈ rest, c.1 - t < delay) :
    throttleRun delay lastCall ((t, v) :: rest) = [v] := by
  rw [throttleRun, if_pos hfire, throttleRun_window delay t rest hburst]

/-- Witness for `throttle_leading_edge` at the concrete burst
`[(1000, 42), (1005, 7)]` with a 10 ms window. -/
theorem throttle_leading_edge_witness :
    throttleRun 10 0 [(1000, 42), (1005, 7)] = [42] :=
  throttle_leading_edge 10 0 1000 42 [(1005, 7)] (by decide) (by decide)

/-- Claim C4, amended: A section is matched exactly when
`topOffset ≤ offset + 100` and `offset + 100 < topOffset + height`: the
lower bound is inclusive, the upper bound exclusive, and the activation
lead is fixed at 100 pixels. -/
theorem sectionMatches_iff (o top h : Nat) :
    sectionMatches o top h = true ↔ top ≤ o + 100 ∧ o + 100 < top + h := by
  simp [sectionMatches]

/-- Claim C3, counterexample: With the document exactly as tall as the
viewport (scrollable height 0) and the page at the top, the computed width
is NaN, not 0 — the code divides by zero and propagates NaN to the width;
and with a negative scrollable height the width is a negative percentage,
below the claimed clamp to [0, 1]. -/
theorem progress_nan_not_clamped :
    progressWidth 0 500 500 = JS.Num.nan ∧
    JS.Num.nan ≠ JS.Num.fin 0 ∧
    progressWidth 50 400 500 = JS.Num.fin (-50) := by
  refine ⟨?_, by decide, ?_⟩ <;>
    norm_num [progressWidth, JS.minFin, JS.mulHundred, JS.divFin, min_def]

/-- Claim C3, amended: The fill percentage is
`scrollY / (docHeight - viewHeight) * 100` clamped above at 100 but not
below, with no zero-denominator guard: with a positive scrollable height it
equals `min(scrollY / h * 100, 100)` and lies in [0, 100]; with scrollable
height 0 it is NaN at offset 0 (propagated into the width) and 100 at any
positive offset; with negative scrollable height and positive offset it is
a negative percentage. -/
theorem progress_actual (scrollY docH viewH : ℚ) (hy : 0 ≤ scrollY) :
    (0 < docH - viewH →
      progressWidth scrollY docH viewH =
        JS.Num.fin (min (scrollY / (docH - viewH) * 100) 100) ∧
      0 ≤ min (scrollY / (docH - viewH) * 100) 100 ∧
      min (scrollY / (docH - viewH) * 100) 100 ≤ 100) ∧
    (docH - viewH = 0 ∧ scrollY = 0 → progressWidth scrollY docH viewH = JS.Num.nan) ∧
    (docH - viewH = 0 ∧ 0 < scrollY → progressWidth scrollY docH viewH = JS.Num.fin 100) ∧
    (docH - viewH < 0 ∧ 0 < scrollY →
      ∃ q, q < 0 ∧ progressWidth scrollY docH viewH = JS.Num.fin q) := by
  refine ⟨fun hd => ?_, fun ⟨hd, hy0⟩ => ?_, fun ⟨hd, hy0⟩ => ?_, fun ⟨hd, hy0⟩ => ?_⟩
  · have hdiv : 0 ≤ scrollY / (docH - viewH) := div_nonneg hy hd.le
    refine ⟨?_, le_min (by linarith) (by norm_num), min_le_right _ _⟩
    simp [progressWidth, JS.divFin, JS.mulHundred, JS.minFin, hd.ne.symm]
  · simp [progressWidth, JS.divFin, JS.mulHundred, JS.minFin, hd, hy0]
  · simp [progressWidth, JS.divFin, JS.mulHundred, JS.minFin, hd, hy0, hy0.ne.symm]
  · have hdiv : scrollY / (docH - viewH) < 0 := div_neg_of_pos_of_neg hy0 hd
    have hq : scrollY / (docH - viewH) * 100 < 0 := by linarith
    refine ⟨scrollY / (docH - viewH) * 100, hq, ?_⟩
    simp only [progressWidth, JS.divFin, if_neg hd.ne]
    exact congrArg JS.Num.fin (min_eq_left (by linarith))

/-- Witness for `progress_actual`: offset 150 on a page with document
height 600 and viewport 400 yields a width of 75 percent. -/
theorem progress_actual_witness :
    progressWidth 150 600 400 = JS.Num.fin (min (150 / (600 - 400) * 100) 100) :=
  ((progress_actual 150 600 400 (by norm_num)).1 (by norm_num)).1

/-- Rewriting the whole link set twice keeps only the second rewrite. -/
theorem applyMatch_comp (L : List NavLink) (a b : String) :
    applyMatch (applyMatch L a) b = applyMatch L b := by
  simp [applyMatch, List.map_map, Function.comp_def]

/-- A rewrite by `applyMatch` does not change which link points where. -/
theorem applyMatch_ids (L : List NavLink) (id : String) :
    (applyMatch L id).map Prod.fst = L.map Prod.fst := by
  simp [applyMatch, List.map_map, Function.comp_def]

/-- Unfolding `matchingIds` over the head section. -/
theorem matchingIds_cons (sec : Section) (rest : List Section) (o : Nat) :
    matchingIds (sec :: rest) o =
      if sectionMatches o sec.2.1 sec.2.2 then sec.1 :: matchingIds rest o
      else matchingIds rest o := by
  by_cases h : sectionMatches o sec.2.1 sec.2.2 <;>
    simp [matchingIds, List.filter_cons, h]

/-- A highlight tick either leaves the links alone (no section matched) or
rewrites them for the last matching section. -/
theorem highlightTick_eq (sections : List Section) (L : List NavLink) (o : Nat) :
    highlightTick sections L o =
      match (matchingIds sections o).getLast? with
      | none => L
      | some id => applyMatch L id := by
  induction sections generalizing L with
  | nil => rfl
  | cons sec rest ih =>
    have hstep : highlightTick (sec :: rest) L o =
        highlightTick rest
          (if sectionMatches o sec.2.1 sec.2.2 then applyMatch L sec.1 else L) o := by
      simp [highlightTick]
    by_cases h : sectionMatches o sec.2.1 sec.2.2
    · rw [hstep, if_pos h, ih, matchingIds_cons, if_pos h]
      cases hxs : matchingIds rest o with
      | nil => simp
      | cons y ys =>
        rcases hz : (y :: ys).getLast? with _ | z
        · simp at hz
        · simp [hz, applyMatch_comp]
    · rw [hstep, if_neg h, ih, matchingIds_cons, if_neg h]

/-- Unfolding `applyMatch` over the head link. -/
theorem applyMatch_cons (l : NavLink) (L : List NavLink) (id : String) :
    applyMatch (l :: L) id = (l.1, l.1 == id) :: applyMatch L id := rfl

/-- Unfolding `countActive` over the head link. -/
theorem countActive_cons (l : NavLink) (L : List NavLink) :
    countActive (l :: L) = (if l.2 then 1 else 0) + countActive L := by
  by_cases h : l.2 <;> simp [countActive, List.filter_cons, h]
  omega

/-- After a rewrite for a target no link points at, no link is active. -/
theorem countActive_applyMatch_eq_zero (L : List NavLink) (id : String)
    (h : id ∉ L.map Prod.fst) : countActive (applyMatch L id) = 0 := by
  induction L with
  | nil => rfl
  | cons l rest ih =>
    have h1 : l.1 ≠ id := fun he => h (by simp [he])
    have h2 : id ∉ rest.map Prod.fst := fun hm => h (by simp [hm])
    have hb : (l.1 == id) = false := by simp [h1]
    rw [applyMatch_cons, countActive_cons, ih h2]
    simp [hb]

/-- With pairwise-distinct link targets, a rewrite leaves at most one link
active. -/
theorem countActive_applyMatch_le_one (L : List NavLink) (id : String)
    (h : (L.map Prod.fst).Nodup) : countActive (applyMatch L id) ≤ 1 := by
  induction L with
  | nil => exact Nat.zero_le 1
  | cons l rest ih =>
    rw [List.map_cons, List.nodup_cons] at h
    by_cases he : l.1 = id
    · have hz : countActive (applyMatch rest id) = 0 :=
        countActive_applyMatch_eq_zero rest id (he ▸ h.1)
      have hb : (l.1 == id) = true := by simp [he]
      rw [applyMatch_cons, countActive_cons, hz]
      simp [hb]
    · have hb : (l.1 == id) = false := by simp [he]
      rw [applyMatch_cons, countActive_cons]
      simpa [hb] using ih h.2

/-- A highlight tick does not change which link points where. -/
theorem highlightTick_ids (sections : List Section) (L : List NavLink) (o : Nat) :
    (highlightTick sections L o).map Prod.fst = L.map Prod.fst := by
  rw [highlightTick_eq]
  cases (matchingIds sections o).getLast? with
  | none => rfl
  | some id => exact applyMatch_ids L id

/-- A highlight tick preserves the at-most-one-active invariant. -/
theorem countActive_highlightTick (sections : List Section) (L : List NavLink) (o : Nat)
    (hnodup : (L.map Prod.fst).Nodup) (hle : countActive L ≤ 1) :
    countActive (highlightTick sections L o) ≤ 1 := by
  rw [highlightTick_eq]
  cases (matchingIds sections o).getLast? with
  | none => exact hle
  | some id => exact countActive_applyMatch_le_one L id hnodup

/-- Claim C5: With distinct link targets and at most one active link to start
with:  after any sequence of highlight ticks at most one link is active; a
tick matching no section leaves the links unchanged; and when sections
match, the tick rewrites the links for the last matching section in
registration order, so a link ends active exactly when it targets that
section. -/
theorem highlight_invariants (sections : List Section) (links : List NavLink)
    (ticks : List Nat)
    (hnodup : (links.map Prod.fst).Nodup) (hinit : countActive links ≤ 1) :
    countActive (highlightRun sections links ticks) ≤ 1 ∧
    (∀ (L : List NavLink) (o : Nat), matchingIds sections o = [] →
      highlightTick sections L o = L) ∧
    (∀ (L : List NavLink) (o : Nat) (id : String),
      (matchingIds sections o).getLast? = some id →
      highlightTick sections L o = applyMatch L id ∧
      ∀ l ∈ highlightTick sections L o, l.2 = (l.1 == id)) := by
  refine ⟨?_, ?_, ?_⟩
  · induction ticks generalizing links with
    | nil => exact hinit
    | cons t ts ih =>
      have hids := highlightTick_ids sections links t
      exact ih (highlightTick sections links t) (hids ▸ hnodup)
        (countActive_highlightTick sections links t hnodup hinit)
  · intro L o h
    rw [highlightTick_eq, h]
    rfl
  · intro L o id h
    have he : highlightTick sections L o = applyMatch L id := by
      rw [highlightTick_eq, h]
    refine ⟨he, ?_⟩
    rw [he]
    intro l hl
    rcases List.mem_map.mp hl with ⟨l0, _, rfl⟩
    rfl

/-- Witness for `highlight_invariants`: two sections of height 300 starting
at 0 and 300, two links, ticks at offsets 0 and 250: the second tick lands
in the second section, leaving exactly its link active. -/
theorem highlight_invariants_witness :
    (([("home", true), ("about", false)] : List NavLink).map Prod.fst).Nodup ∧
    countActive [("home", true), ("about", false)] ≤ 1 ∧
    countActive (highlightRun [("home", 0, 300), ("about", 300, 300)]
      [("home", true), ("about", false)] [0, 250]) ≤ 1 :=
  ⟨by decide, by decide,
    (highlight_invariants [("home", 0, 300), ("about", 300, 300)]
      [("home", true), ("about", false)] [0, 250] (by decide) (by decide)).1⟩

/-- The easing curve never exceeds 1. -/
theorem easeOutQuad_le_one (x : ℚ) : easeOutQuad x ≤ 1 := by
  have h : 0 ≤ (1 - x) * (1 - x) := mul_self_nonneg _
  unfold easeOutQuad
  linarith

/-- Claim C6: The counter interpolates from 0 with the ease-out curve, never
displays a value above the target at any sample, and any sample at or past
the 2000 ms duration displays exactly the target; in particular a target of
1000 over 2000 ms ends at exactly 1000. -/
theorem animateCounter_spec (target : Nat) (elapsed : ℚ) :
    counterDisplay target elapsed ≤ (target : ℤ) ∧
    (2000 ≤ elapsed → counterDisplay target elapsed = target) ∧
    counterDisplay target 0 = 0 ∧
    counterDisplay 1000 2000 = 1000 := by
  refine ⟨?_, ?_, ?_, ?_⟩
  · have h1 : (target : ℚ) * easeOutQuad (min (elapsed / 2000) 1) ≤ (target : ℚ) := by
      have := easeOutQuad_le_one (min (elapsed / 2000) 1)
      nlinarith [Nat.cast_nonneg (α := ℚ) target]
    calc counterDisplay target elapsed ≤ ⌊(target : ℚ)⌋ := Int.floor_le_floor h1
      _ = (target : ℤ) := Int.floor_natCast target
  · intro h
    have hx : (1 : ℚ) ≤ elapsed / 2000 := by
      rw [le_div_iff₀ (by norm_num : (0:ℚ) < 2000)]
      linarith
    unfold counterDisplay
    rw [min_eq_right hx]
    norm_num [easeOutQuad]
  · norm_num [counterDisplay, easeOutQuad]
  · norm_num [counterDisplay, easeOutQuad]

/-- Witness for `animateCounter_spec`: a sample at 2500 ms for target 1000
displays exactly 1000. -/
theorem animateCounter_spec_witness : counterDisplay 1000 2500 = 1000 :=
  (animateCounter_spec 1000 2500).2.1 (by norm_num)

end Portfolio

namespace MainJs

/-- Claim C7, counterexample: A click on an anchor to an existing section
with the nav element absent: `handleNavClick` of main_js.js reads
`this.nav.offsetHeight` and throws instead of being a silent no-op. -/
theorem handleNavClick_throws_without_nav :
    handleNavClick none (some "#about".toList)
        (fun h => if h = "#about".toList then some 500 else none) =
      ClickResult.threw := by
  decide

/-- Claim C7, amended: A missing or non-anchor href and a missing click
target are silent no-ops in both drafts, and portfolio.js also tolerates a
missing nav (its `setupNavigation` registers no scroll listener and its
anchor handler falls back to height 0); but `handleNavClick` of main_js.js
throws when the nav is absent and a target is found. -/
theorem missing_dom_handling (nav : Option Nat) (lookup : List Char → Option Nat)
    (h : List Char) (top : Nat) :
    handleNavClick nav none lookup = ClickResult.noop ∧
    (∀ c rest, h = c :: rest → c ≠ '#' → handleNavClick nav (some h) lookup = .noop) ∧
    (lookup h = none → handleNavClick nav (some h) lookup = .noop) ∧
    Portfolio.setupNavigation none = false ∧
    Portfolio.anchorClick none (some top) = .scrolledTo ((top : Int) - 0 - 20) ∧
    Portfolio.anchorClick nav none = .noop ∧
    (∀ rest, h = '#' :: rest → lookup h = some top →
      handleNavClick none (some h) lookup = .threw) := by
  refine ⟨rfl, ?_, ?_, rfl, ?_, rfl, ?_⟩
  · rintro c rest rfl hc
    cases hcc : (c == '#') with
    | true => exact absurd (by simpa using hcc) hc
    | false =>
      simp only [handleNavClick]
      split
      · next heq => rw [List.cons.injEq] at heq; exact absurd heq.1 hc
      · rfl
  · intro hl
    cases h with
    | nil => rfl
    | cons c rest =>
      by_cases hc : c = '#'
      · subst hc; simp [handleNavClick, hl]
      · simp only [handleNavClick]
        split
        · next heq => rw [List.cons.injEq] at heq; exact absurd heq.1 hc
        · rfl
  · simp [Portfolio.anchorClick]
  · rintro rest rfl hl
    simp [handleNavClick, hl]

/-- Witness for `missing_dom_handling` at the concrete href `#about`,
target top 500 and nav height 60. -/
theorem missing_dom_handling_witness :
    handleNavClick (some 60) none (fun _ => some 500) = ClickResult.noop ∧
    handleNavClick none (some "#about".toList) (fun _ => some 500) = ClickResult.threw :=
  ⟨(missing_dom_handling (some 60) (fun _ => some 500) "#about".toList 500).1,
    (missing_dom_handling none (fun _ => some 500) "#about".toList 500).2.2.2.2.2.2
      "about".toList (by decide) rfl⟩

/-- Claim C10: The per-field blur validator accepts an empty or
whitespace-only value for every field name, showing no inline error, while
whole-form submit validation rejects empty name, email and message, showing
all three inline errors. -/
theorem blur_accepts_empty_submit_rejects (fieldName value : List Char)
    (h : jsTrim value = []) :
    validateField fieldName value = (true, none) ∧
    validateForm [] [] [] =
      (false,
        ["Name must be at least 2 characters", "Please enter a valid email address",
          "Message must be at least 10 characters"]) := by
  constructor
  · simp only [validateField, h]
    split_ifs <;> simp_all
  · decide

/-- Witness for `blur_accepts_empty_submit_rejects`: a whitespace-only
message value passes the blur validator. -/
theorem blur_accepts_empty_witness :
    validateField "message".toList [' ', ' '] = (true, none) :=
  (blur_accepts_empty_submit_rejects "message".toList [' ', ' '] (by decide)).1

end MainJs

namespace DarkMode

/-- Claim C8: With no stored preference and a dark system preference the
startup theme resolves to dark, and a single toggle click then applies the
light theme and stores `light`. -/
theorem toggle_from_system_dark :
    resolveStartup none true = "dark" ∧
    initDarkMode none true = ⟨true, none⟩ ∧
    toggleClick (initDarkMode none true) = ⟨false, some "light"⟩ := by
  refine ⟨rfl, rfl, rfl⟩

/-- Claim C9, counterexample: Starting dark with no stored preference, two
toggle clicks restore the applied class but leave `theme = dark` in
storage: the pair (applied, stored) is not restored. -/
theorem toggle_not_involutive :
    toggleClick (toggleClick ⟨true, none⟩) = ⟨true, some "dark"⟩ ∧
    (⟨true, some "dark"⟩ : ThemeState) ≠ ⟨true, none⟩ := by
  refine ⟨rfl, by decide⟩

/-- Claim C9, amended: Two successive toggle clicks always restore the applied
body class, and always leave the stored `theme` key equal to the applied
theme name; hence the (applied, stored) pair is restored exactly when such
a preference was already stored before the first click. -/
theorem toggle_twice (s : ThemeState) :
    (toggleClick (toggleClick s)).applied = s.applied ∧
    (toggleClick (toggleClick s)).stored = some (if s.applied then "dark" else "light") ∧
    (toggleClick (toggleClick s) = s ↔
      s.stored = some (if s.applied then "dark" else "light")) := by
  cases s with
  | mk a st =>
    cases a <;>
      simp [toggleClick, ThemeState.mk.injEq, eq_comm]

end DarkMode
